import Mathlib

/-!
Verification of the i3 window-manager MCP server (`i3_mcp.py`).

The development shallowly embeds the tree-query engine, the criteria
matcher, the command synthesizer of the individual operations, and the
response truncator.  Python dictionaries coming from the i3 IPC tree are
modelled as a `Node` inductive with optional fields (absent JSON key =
`none`); Python strings are Lean `String`s, with `len`/slicing modelled on
the underlying character list; Python truthiness of an optional value is
made explicit (`none`, `some 0` and `some ""` are falsy).  The IPC
transport is modelled as a function from the command line sent to the
reply, and every operation additionally exposes the ordered trace of
command lines it hands to the transport.
-/

/-- Python `len` on a string: number of characters. -/
def pyLen (s : String) : Nat := s.data.length

/-- Python slicing `s[:n]`: the first `n` characters. -/
def pyTake (s : String) (n : Nat) : String := ⟨s.data.take n⟩

/-- Python `str.lower()` (ASCII case folding, which covers every literal
the server compares). -/
def strLower (s : String) : String := ⟨s.data.map Char.toLower⟩

/-- Python `needle in hay` on strings: substring containment. -/
def strContainsSub (hay needle : String) : Bool :=
  decide (needle.data <:+: hay.data)

/-- Python truthiness of an optional string (`None` and `""` are falsy). -/
def strTruthy : Option String → Bool
  | none => false
  | some s => s ≠ ""

/-- Python truthiness of an optional integer (`None` and `0` are falsy). -/
def intTruthy : Option Int → Bool
  | none => false
  | some n => n ≠ 0

/-- Python truthiness of an optional natural number. -/
def natTruthy : Option Nat → Bool
  | none => false
  | some n => n ≠ 0

/-- Result of one `run_i3_msg` transport call: the success flag and the
optional error text of the parsed reply. -/
structure CmdRes where
  success : Bool
  error : Option String := none
deriving Repr, DecidableEq

/-- The transport: maps the command line handed to `i3-msg` to its reply. -/
abbrev Transport := String → CmdRes

/-- The `window_properties` sub-dictionary of a tree node. -/
structure WindowProps where
  wclass : Option String := none
  winstance : Option String := none
  window_role : Option String := none
deriving Repr, DecidableEq

/-- One node of the i3 container tree (the keys of the JSON dictionary the
server reads: `window`, `name`, `window_properties`, `window_type`,
`type`, `urgent`, `scratchpad_state`, `output`, `nodes`,
`floating_nodes`). -/
inductive Node where
  | mk (window : Option Nat) (name : Option String) (props : WindowProps)
       (window_type : Option String) (ctype : Option String) (urgent : Bool)
       (scratchpad_state : Option String) (output : Option String)
       (nodes : List Node) (floating_nodes : List Node)
deriving Repr

def Node.window : Node → Option Nat
  | .mk w _ _ _ _ _ _ _ _ _ => w

def Node.name : Node → Option String
  | .mk _ nm _ _ _ _ _ _ _ _ => nm

def Node.props : Node → WindowProps
  | .mk _ _ p _ _ _ _ _ _ _ => p

def Node.window_type : Node → Option String
  | .mk _ _ _ wt _ _ _ _ _ _ => wt

def Node.ctype : Node → Option String
  | .mk _ _ _ _ ct _ _ _ _ _ => ct

def Node.urgent : Node → Bool
  | .mk _ _ _ _ _ u _ _ _ _ => u

def Node.scratchpad_state : Node → Option String
  | .mk _ _ _ _ _ _ ss _ _ _ => ss

def Node.output : Node → Option String
  | .mk _ _ _ _ _ _ _ o _ _ => o

def Node.nodes : Node → List Node
  | .mk _ _ _ _ _ _ _ _ ns _ => ns

def Node.floating_nodes : Node → List Node
  | .mk _ _ _ _ _ _ _ _ _ fns => fns

/-- The guard `node.get("window") and node.get("window") != 0`: the node
bears a (nonzero) window identifier. -/
def hasWindow (n : Node) : Bool :=
  match n.window with
  | some w => w ≠ 0
  | none => false

mutual

/-- Every node of the tree in depth-first visitation order, a node before
its children and its primary children before its floating children (the
order in which `find_windows_recursive` visits the tree). -/
def allNodes : Node → List Node
  | .mk w nm p wt ct u ss o ns fns =>
    Node.mk w nm p wt ct u ss o ns fns :: (allNodesList ns ++ allNodesList fns)
termination_by structural t => t

def allNodesList : List Node → List Node
  | [] => []
  | n :: rest => allNodes n ++ allNodesList rest
termination_by structural l => l

end

/-- One entry of the `criteria` dictionary handed to
`find_windows_recursive` (key together with its value). -/
inductive CritEntry where
  | cls (v : String)
  | title (v : String)
  | winstance (v : String)
  | role (v : String)
  | wtype (v : String)
  | floating (v : Bool)
  | urgent (v : Bool)
  | workspace (v : String)
deriving Repr, DecidableEq

/-- The comparison the matching loop of `find_windows_recursive` applies
to one criteria entry (a failing entry sets `matches = False`; the
`workspace` key is skipped by the source). -/
def critEntryMatches (n : Node) : CritEntry → Bool
  | .cls v => strLower (n.props.wclass.getD "") == strLower v
  | .title v => strContainsSub (strLower (n.name.getD "")) (strLower v)
  | .winstance v => strLower (n.props.winstance.getD "") == strLower v
  | .role v => strLower (n.props.window_role.getD "") == strLower v
  | .wtype v => strLower (n.window_type.getD "") == strLower v
  | .floating v => (n.ctype == some "floating_con") == v
  | .urgent v => n.urgent == v
  | .workspace _ => true

/-- The matching loop of `find_windows_recursive`: all entries must pass. -/
def matchesCriteria (n : Node) (criteria : List CritEntry) : Bool :=
  criteria.all (critEntryMatches n)

mutual

/-- `find_windows_recursive` from the source: collect the node when it
bears a window identifier and (criteria absent or all entries pass), then
recurse through `nodes + floating_nodes`. -/
def find_windows_recursive (node : Node) (criteria : List CritEntry) : List Node :=
  match node with
  | .mk w nm p wt ct u ss o ns fns =>
    let n := Node.mk w nm p wt ct u ss o ns fns
    let here : List Node :=
      if hasWindow n then
        if criteria.isEmpty then [n]
        else if matchesCriteria n criteria then [n]
        else []
      else []
    here ++ (findWindowsList ns criteria ++ findWindowsList fns criteria)
termination_by structural node

def findWindowsList (l : List Node) (criteria : List CritEntry) : List Node :=
  match l with
  | [] => []
  | n :: rest => find_windows_recursive n criteria ++ findWindowsList rest criteria
termination_by structural l

end

/-- The comparison rules as §3 of the specification words them, one rule
per present key: `class`, `instance`, `role`, `type` are equality after
lowercasing, `title` is substring containment after lowercasing,
`floating` and `urgent` are exact boolean comparisons (floating meaning
the node's container kind is `floating_con`); the `workspace` key is not
applied. -/
def critEntrySpec (n : Node) : CritEntry → Prop
  | .cls v => strLower (n.props.wclass.getD "") = strLower v
  | .title v => (strLower v).data <:+: (strLower (n.name.getD "")).data
  | .winstance v => strLower (n.props.winstance.getD "") = strLower v
  | .role v => strLower (n.props.window_role.getD "") = strLower v
  | .wtype v => strLower (n.window_type.getD "") = strLower v
  | .floating v => ((n.ctype = some "floating_con") ↔ v = true)
  | .urgent v => n.urgent = v
  | .workspace _ => True

/-- A window node with class "firefox" and no further attributes. -/
def firefoxNode : Node :=
  .mk (some 77) (some "Mozilla Firefox") { wclass := some "firefox" }
    none none false none none [] []

/-- CHARACTER_LIMIT from the source. -/
def CHARACTER_LIMIT : Nat := 25000

/-- The truncation notice appended by `truncate_response`. -/
def truncNotice (limit : Nat) : String :=
  "\n\n---\n**Response truncated** (exceeded " ++ toString limit ++
    " characters). Use more specific filters or criteria to narrow results."

/-- `truncate_response` from the source. -/
def truncate_response (content : String) (limit : Nat := CHARACTER_LIMIT) : String :=
  if pyLen content ≤ limit then content
  else pyTake content limit ++ truncNotice limit

theorem pyLen_append (a b : String) : pyLen (a ++ b) = pyLen a + pyLen b := by
  simp [pyLen, String.data_append]

/-- C8: `truncate_response` returns the text unchanged when its length is
at most the limit; otherwise it returns exactly the first `limit`
characters followed by the fixed truncation notice (no semantic-boundary
cutting), and the output length never exceeds the limit plus the length of
the notice. -/
theorem truncate_response_spec (content : String) (limit : Nat) :
    (pyLen content ≤ limit → truncate_response content limit = content) ∧
    (limit < pyLen content →
      truncate_response content limit = pyTake content limit ++ truncNotice limit) ∧
    pyLen (truncate_response content limit) ≤ limit + pyLen (truncNotice limit) := by
  refine ⟨fun h => by simp [truncate_response, h], fun h => ?_, ?_⟩
  · simp [truncate_response, Nat.not_le.mpr h]
  · by_cases h : pyLen content ≤ limit
    · simp [truncate_response, h]
      omega
    · simp [truncate_response, h, pyLen_append]
      have : pyLen (pyTake content limit) ≤ limit := by
        simp [pyLen, pyTake, List.length_take]
      omega

/-- C8 witness: a six-character text with limit three is cut to its first
three characters plus the notice, and a short text is returned unchanged. -/
theorem truncate_response_spec_witness :
    truncate_response "abcdef" 3 = pyTake "abcdef" 3 ++ truncNotice 3 ∧
    truncate_response "ab" 3 = "ab" :=
  ⟨(truncate_response_spec "abcdef" 3).2.1 (by decide),
   (truncate_response_spec "ab" 3).1 (by decide)⟩

theorem critEntryMatches_iff (n : Node) (e : CritEntry) :
    critEntryMatches n e = true ↔ critEntrySpec n e := by
  cases e with
  | floating v => cases v <;> simp [critEntryMatches, critEntrySpec]
  | title v => simp [critEntryMatches, critEntrySpec, strContainsSub]
  | _ => simp [critEntryMatches, critEntrySpec]

/-- C4: the criteria matcher accepts a node exactly when every present
criteria entry passes its comparison rule (case-insensitive equality for
class, instance, role and type; case-insensitive substring containment
for title; exact boolean comparison for floating and urgent); in
particular a criteria set with class "Firefox" matches a node whose class
is "firefox". -/
theorem matchesCriteria_iff_spec :
    (∀ (n : Node) (criteria : List CritEntry),
      matchesCriteria n criteria = true ↔ ∀ e ∈ criteria, critEntrySpec n e) ∧
    matchesCriteria firefoxNode [CritEntry.cls "Firefox"] = true := by
  constructor
  · intro n criteria
    simp only [matchesCriteria, List.all_eq_true, critEntryMatches_iff]
  · decide

/-- C4 witness: instantiating the equivalence at the firefox node and the
class criteria set. -/
theorem matchesCriteria_iff_spec_witness :
    (matchesCriteria firefoxNode [CritEntry.cls "Firefox"] = true ↔
      ∀ e ∈ [CritEntry.cls "Firefox"], critEntrySpec firefoxNode e) ∧
    matchesCriteria firefoxNode [CritEntry.cls "Firefox"] = true :=
  ⟨matchesCriteria_iff_spec.1 firefoxNode [CritEntry.cls "Firefox"],
   matchesCriteria_iff_spec.2⟩

mutual

theorem findWindows_empty_eq_filter :
    ∀ (t : Node), find_windows_recursive t [] = (allNodes t).filter hasWindow
  | .mk w nm p wt ct u ss o ns fns => by
    have h1 := findWindowsList_empty_eq_filter ns
    have h2 := findWindowsList_empty_eq_filter fns
    simp only [find_windows_recursive, allNodes, List.isEmpty_nil,
      List.filter_cons, List.filter_append, h1, h2]
    by_cases hw : hasWindow (Node.mk w nm p wt ct u ss o ns fns) <;>
      simp [hw]
termination_by structural t => t

theorem findWindowsList_empty_eq_filter :
    ∀ (l : List Node), findWindowsList l [] = (allNodesList l).filter hasWindow
  | [] => by simp [findWindowsList, allNodesList]
  | n :: rest => by
    have h1 := findWindows_empty_eq_filter n
    have h2 := findWindowsList_empty_eq_filter rest
    simp [findWindowsList, allNodesList, List.filter_append, h1, h2]
termination_by structural l => l

end

/-- C5: with empty criteria, `find_windows_recursive` returns exactly the
window-bearing nodes of the tree, in depth-first visitation order with
primary children before floating children (the order of `allNodes`), with
no other sorting applied. -/
theorem find_windows_empty_criteria (t : Node) :
    find_windows_recursive t [] = (allNodes t).filter hasWindow :=
  findWindows_empty_eq_filter t

/-- The record `find_visible_scratchpads` emits for one visible
scratchpad container. -/
structure ScratchInfo where
  window_id : Nat
  name : String
  wclass : String
  output : Option String
  scratchpad_state : String
deriving Repr, DecidableEq

/-- The visibility test of `find_visible_scratchpads`: the node's
`scratchpad_state` is truthy and not "none", and its `output` is not the
hidden sentinel "__i3". -/
def scratchpad_visible (n : Node) : Bool :=
  (match n.scratchpad_state with
   | none => false
   | some s => s ≠ "" && s ≠ "none") && n.output != some "__i3"

/-- The record built from a visible scratchpad container `n` and the
window-bearing child `c` found inside it. -/
def scratchRecordOfChild (n c : Node) : ScratchInfo :=
  { window_id := c.window.getD 0
  , name := c.name.getD "Untitled"
  , wclass := c.props.wclass.getD "N/A"
  , output := n.output
  , scratchpad_state := n.scratchpad_state.getD "" }

mutual

/-- `find_visible_scratchpads` from the source: when the node passes the
visibility test, record the first immediate primary child bearing a
window identifier (the loop with `break`), then recurse through
`nodes + floating_nodes`. -/
def find_visible_scratchpads (node : Node) : List ScratchInfo :=
  match node with
  | .mk w nm p wt ct u ss o ns fns =>
    let n := Node.mk w nm p wt ct u ss o ns fns
    let here : List ScratchInfo :=
      if scratchpad_visible n then
        match ns.find? hasWindow with
        | some c => [scratchRecordOfChild n c]
        | none => []
      else []
    here ++ (findVisibleList ns ++ findVisibleList fns)
termination_by structural node

def findVisibleList (l : List Node) : List ScratchInfo :=
  match l with
  | [] => []
  | n :: rest => find_visible_scratchpads n ++ findVisibleList rest
termination_by structural l

end

/-- The record one node contributes, as §4.2 of the specification words
it: a node is a visible scratchpad window when its scratchpad state is
set (truthy) and not "none" and its output is not the hidden sentinel;
the record is taken from the first immediate primary child bearing a
window identifier, and there is no record when no such child exists. -/
def scratchpadRecord (n : Node) : Option ScratchInfo :=
  if scratchpad_visible n then (n.nodes.find? hasWindow).map (scratchRecordOfChild n)
  else none

mutual

theorem findVisible_eq_filterMap :
    ∀ (t : Node), find_visible_scratchpads t = (allNodes t).filterMap scratchpadRecord
  | .mk w nm p wt ct u ss o ns fns => by
    have h1 := findVisibleList_eq_filterMap ns
    have h2 := findVisibleList_eq_filterMap fns
    simp only [find_visible_scratchpads, allNodes, List.filterMap_cons,
      List.filterMap_append, h1, h2]
    by_cases hv : scratchpad_visible (Node.mk w nm p wt ct u ss o ns fns) <;>
      cases hf : ns.find? hasWindow <;>
        simp [hv, scratchpadRecord, Node.nodes, hf]
termination_by structural t => t

theorem findVisibleList_eq_filterMap :
    ∀ (l : List Node), findVisibleList l = (allNodesList l).filterMap scratchpadRecord
  | [] => by simp [findVisibleList, allNodesList]
  | n :: rest => by
    have h1 := findVisible_eq_filterMap n
    have h2 := findVisibleList_eq_filterMap rest
    simp [findVisibleList, allNodesList, List.filterMap_append, h1, h2]
termination_by structural l => l

end

/-- A hidden scratchpad container of the concrete example: state
"changed" but parked on the sentinel output "__i3". -/
def hiddenScratch : Node :=
  .mk none none {} none (some "floating_con") false (some "changed") (some "__i3")
    [.mk (some 11) (some "Obsidian") { wclass := some "obsidian" } none none false
      (some "none") (some "__i3") [] []] []

/-- A visible scratchpad container of the concrete example: state "fresh"
on the real output "HDMI-1", wrapping window 22. -/
def visibleScratch : Node :=
  .mk none none {} none (some "floating_con") false (some "fresh") (some "HDMI-1")
    [.mk (some 22) (some "term") { wclass := some "Term" } none none false
      (some "none") (some "HDMI-1") [] []] []

/-- The concrete example tree of the specification: one hidden and one
visible scratchpad container. -/
def scratchExampleTree : Node :=
  .mk none (some "root") {} none (some "root") false (some "none") none
    [hiddenScratch, visibleScratch] []

/-- C3: the visible-scratchpad query returns, in traversal order, one
record per node passing the visibility test (scratchpad state set and not
"none", output not the sentinel "__i3"), the record taken from the first
immediate primary child bearing a window identifier; a qualifying
container none of whose immediate primary children bears a window
identifier yields no record; and the concrete example tree (one container
with state "changed" on output "__i3", one with state "fresh" on output
"HDMI-1") yields exactly one visible window. -/
theorem find_visible_scratchpads_spec :
    (∀ (t : Node), find_visible_scratchpads t = (allNodes t).filterMap scratchpadRecord) ∧
    (∀ (n : Node), (∀ c ∈ n.nodes, hasWindow c = false) → scratchpadRecord n = none) ∧
    find_visible_scratchpads scratchExampleTree =
      [{ window_id := 22, name := "term", wclass := "Term",
         output := some "HDMI-1", scratchpad_state := "fresh" }] := by
  refine ⟨findVisible_eq_filterMap, fun n hn => ?_, by decide⟩
  have : n.nodes.find? hasWindow = none := by
    apply List.find?_eq_none.mpr
    intro c hc
    simp [hn c hc]
  simp [scratchpadRecord, this]

/-- C3 witness: the characterization at the example tree, and a
qualifying container with no window-bearing primary child (state
"changed" on a real output, only a windowless child) yields no record. -/
theorem find_visible_scratchpads_spec_witness :
    (find_visible_scratchpads scratchExampleTree =
      (allNodes scratchExampleTree).filterMap scratchpadRecord) ∧
    scratchpadRecord
      (.mk none none {} none none false (some "changed") (some "DP-1")
        [.mk none none {} none none false none none [] []] []) = none :=
  ⟨find_visible_scratchpads_spec.1 scratchExampleTree,
   find_visible_scratchpads_spec.2.1 _ (by decide)⟩

/-- The `Direction` enum of the server (`.value` is the lowercase name). -/
inductive Direction where
  | left | right | up | down
deriving Repr, DecidableEq

def Direction.val : Direction → String
  | .left => "left"
  | .right => "right"
  | .up => "up"
  | .down => "down"

/-- `MoveWindowInput`: the pydantic model for `i3_move_window` (all
optionals default to absent, booleans to false). -/
structure MoveWindowInput where
  direction : Option Direction := none
  position_x : Option Int := none
  position_y : Option Int := none
  center : Bool := false
  to_mouse : Bool := false
  to_mark : Option String := none
  workspace : Option String := none
deriving Repr, DecidableEq

/-- The `position_options` sum of `i3_move_window`: how many of the four
mutually exclusive positioning options are set (`to_mark` and the
positions count by `is not None`; both positions together count once). -/
def positionOptionsCount (p : MoveWindowInput) : Nat :=
  (if p.center then 1 else 0) + (if p.to_mouse then 1 else 0) +
    (if p.to_mark.isSome then 1 else 0) +
    (if p.position_x.isSome || p.position_y.isSome then 1 else 0)

/-- `i3_move_window` from the source, as the synthesized command handed to
`run_i3_msg` (`.ok`) or the validation failure returned before any
transport call (`.error`). -/
def i3_move_window (p : MoveWindowInput) : Except String String :=
  let cmds : List String :=
    (match p.workspace with
     | some w => if w ≠ "" then ["move container to workspace " ++ w] else []
     | none => []) ++
    (match p.direction with
     | some d => ["move " ++ d.val]
     | none => [])
  if 1 < positionOptionsCount p then
    Except.error "Can only specify one positioning option: center, to_mouse, to_mark, or absolute position (position_x/position_y)"
  else
    let step : Except String (List String) :=
      if p.center then .ok (cmds ++ ["move position center"])
      else if p.to_mouse then .ok (cmds ++ ["move position mouse"])
      else if strTruthy p.to_mark then
        .ok (cmds ++ ["move window to mark \"" ++ p.to_mark.getD "" ++ "\""])
      else if p.position_x.isSome && p.position_y.isSome then
        .ok (cmds ++ ["move position " ++ toString (p.position_x.getD 0) ++ " px " ++
          toString (p.position_y.getD 0) ++ " px"])
      else if p.position_x.isSome || p.position_y.isSome then
        .error "Both position_x and position_y must be specified together."
      else .ok cmds
    match step with
    | .error e => .error e
    | .ok commands =>
      if commands.isEmpty then
        .error "Must specify at least one move operation (direction, position, center, to_mouse, to_mark, or workspace)."
      else .ok (String.intercalate ", " commands)

/-- The ordered list of command lines `i3_move_window` hands to the
transport: one joined command on success, none on a validation failure. -/
def moveWindowTrace (p : MoveWindowInput) : List String :=
  match i3_move_window p with
  | .ok c => [c]
  | .error _ => []

/-- C2: whenever more than one of the positioning options (center,
to_mouse, to_mark, absolute position) is set, `i3_move_window` returns
the mutual-exclusion validation failure and issues zero transport calls,
regardless of the other parameters. -/
theorem move_window_mutual_exclusion (p : MoveWindowInput)
    (h : 1 < positionOptionsCount p) :
    i3_move_window p =
      .error "Can only specify one positioning option: center, to_mouse, to_mark, or absolute position (position_x/position_y)" ∧
    moveWindowTrace p = [] := by
  constructor
  · simp [i3_move_window, h]
  · simp [moveWindowTrace, i3_move_window, h]

/-- C2 witness: center together with to_mouse (and a workspace and a
direction also set) yields the validation failure and an empty trace. -/
theorem move_window_mutual_exclusion_witness :
    i3_move_window
      { center := true, to_mouse := true,
        workspace := some "2", direction := some .left } =
      .error "Can only specify one positioning option: center, to_mouse, to_mark, or absolute position (position_x/position_y)" ∧
    moveWindowTrace
      { center := true, to_mouse := true,
        workspace := some "2", direction := some .left } = [] :=
  move_window_mutual_exclusion
    { center := true, to_mouse := true,
      workspace := some "2", direction := some .left } (by decide)

/-- The workspace scope of `GapsInput` (`"current"` or `"all"`). -/
inductive GapsScope where
  | current | all
deriving Repr, DecidableEq

/-- `GapsInput`: the pydantic model for `i3_gaps_set` (`inner` and
`outer` are optional integers validated to the range 0..500). -/
structure GapsInput where
  inner : Option Nat := none
  outer : Option Nat := none
  scope : GapsScope := .current
deriving Repr, DecidableEq

/-- `i3_gaps_set` from the source: the presence check uses Python
truthiness (`not params.inner and not params.outer`), the command
construction uses `is not None`. -/
def i3_gaps_set (p : GapsInput) : Except String String :=
  if !natTruthy p.inner && !natTruthy p.outer then
    .error "Must specify at least one of: inner, outer"
  else
    let scopeWord := match p.scope with
      | .current => "workspace"
      | .all => "global"
    let commands : List String :=
      (match p.inner with
       | some i => ["gaps inner " ++ scopeWord ++ " set " ++ toString i]
       | none => []) ++
      (match p.outer with
       | some o => ["gaps outer " ++ scopeWord ++ " set " ++ toString o]
       | none => [])
    .ok (String.intercalate ", " commands)

/-- The command lines `i3_gaps_set` hands to the transport. -/
def gapsTrace (p : GapsInput) : List String :=
  match i3_gaps_set p with
  | .ok c => [c]
  | .error _ => []

/-- C10: `i3_gaps_set` with inner=0 and outer=0 (both inside the
documented 0..500 range) returns the validation failure "Must specify at
least one of: inner, outer" and issues no transport call, because the
presence check treats 0 like an absent parameter; a command is issued
exactly when at least one of the two values is truthy (present and
nonzero), so a zero gap can be set only alongside a nonzero one. -/
theorem gaps_set_zero_treated_as_absent :
    (∀ (sc : GapsScope),
      i3_gaps_set { inner := some 0, outer := some 0, scope := sc } =
        .error "Must specify at least one of: inner, outer" ∧
      gapsTrace { inner := some 0, outer := some 0, scope := sc } = []) ∧
    (∀ (p : GapsInput),
      (∃ c, i3_gaps_set p = .ok c) ↔
        (natTruthy p.inner = true ∨ natTruthy p.outer = true)) ∧
    i3_gaps_set { inner := some 0, outer := some 10, scope := .current } =
      .ok "gaps inner workspace set 0, gaps outer workspace set 10" := by
  refine ⟨fun sc => by cases sc <;> simp [i3_gaps_set, gapsTrace, natTruthy], fun p => ?_, by rfl⟩
  by_cases hi : natTruthy p.inner <;> by_cases ho : natTruthy p.outer <;>
    simp [i3_gaps_set, hi, ho]

/-- C10 witness: instantiating the equivalence at inner=0, outer=0 (no
command issued) and the zero/nonzero example. -/
theorem gaps_set_zero_treated_as_absent_witness :
    (i3_gaps_set { inner := some 0, outer := some 0, scope := .current } =
      .error "Must specify at least one of: inner, outer") ∧
    ((∃ c, i3_gaps_set { inner := some 0, outer := some 0, scope := .current } = .ok c) ↔
      (natTruthy (some 0) = true ∨ natTruthy (some 0) = true)) :=
  ⟨(gaps_set_zero_treated_as_absent.1 .current).1,
   gaps_set_zero_treated_as_absent.2.1 { inner := some 0, outer := some 0, scope := .current }⟩

/-- The `mode` literal of `MarkSetInput` ("replace", "add" or "toggle"). -/
inductive MarkMode where
  | replace | add | toggle
deriving Repr, DecidableEq

/-- The command `i3_mark_set` synthesizes and hands to the transport: the
mark literal is interpolated into a double-quoted position verbatim. -/
def i3_mark_set_command (mode : MarkMode) (mark : String) : String :=
  match mode with
  | .replace => "mark --replace \"" ++ mark ++ "\""
  | .add => "mark --add \"" ++ mark ++ "\""
  | .toggle => "mark --toggle \"" ++ mark ++ "\""

/-- The command `i3_scratchpad_move` synthesizes: an optional truthy
`mark_as` is interpolated into a double-quoted `mark` unit, then
`move scratchpad`, joined with ", ". -/
def i3_scratchpad_move_command (mark_as : Option String) : String :=
  String.intercalate ", "
    ((match mark_as with
      | some m => if m ≠ "" then ["mark \"" ++ m ++ "\""] else []
      | none => []) ++ ["move scratchpad"])

/-- Modelled from the spec: the escaping step §4.3 requires and the source
omits — "any quote character inside the literal must itself be escaped
before embedding"; each double quote in the literal is preceded by a
backslash. -/
def specQuoteEscape (s : String) : String :=
  ⟨(s.data.map (fun c => if c = '"' then ['\\', '"'] else [c])).flatten⟩

/-- Modelled from the spec: a literal safely embedded per §4.3 — wrapped
in double quotes with every inner quote escaped. -/
def specQuoteEmbed (s : String) : String :=
  "\"" ++ specQuoteEscape s ++ "\""

/-- C7: evaluation at the failing input. For the mark literal `a"b` the
synthesized commands embed the inner quote verbatim — the mark command
becomes `mark --replace "a"b"` and the scratchpad command
`mark "a"b", move scratchpad` — and differ from the safely escaped
embedding the specification requires, so the embedded value can close the
quoted region early and alter the command structure. -/
theorem mark_set_quote_unescaped :
    i3_mark_set_command .replace "a\"b" = "mark --replace \"a\"b\"" ∧
    i3_mark_set_command .replace "a\"b" ≠ "mark --replace " ++ specQuoteEmbed "a\"b" ∧
    i3_scratchpad_move_command (some "a\"b") = "mark \"a\"b\", move scratchpad" ∧
    i3_scratchpad_move_command (some "a\"b") ≠
      String.intercalate ", " ["mark " ++ specQuoteEmbed "a\"b", "move scratchpad"] := by
  refine ⟨by decide, by decide, by rfl, by decide⟩

/-- Python f-string rendering of an optional integer (`None` prints as
the text "None"). -/
def pyShowOptInt : Option Int → String
  | none => "None"
  | some n => toString n

/-- Python f-string rendering of an optional string. -/
def pyShowOptStr : Option String → String
  | none => "None"
  | some s => s

/-- `SwapContainerInput`: the pydantic model for `i3_swap_containers`. -/
structure SwapInput where
  target_id : Option Int := none
  target_con_id : Option Int := none
  target_mark : Option String := none
  source_id : Option Int := none
  source_con_id : Option Int := none
  source_mark : Option String := none
deriving Repr, DecidableEq

/-- `target_count`: how many target parameters are not None. -/
def targetCount (p : SwapInput) : Nat :=
  (if p.target_id.isSome then 1 else 0) + (if p.target_con_id.isSome then 1 else 0) +
    (if p.target_mark.isSome then 1 else 0)

/-- `source_count`: how many source parameters are not None. -/
def sourceCount (p : SwapInput) : Nat :=
  (if p.source_id.isSome then 1 else 0) + (if p.source_con_id.isSome then 1 else 0) +
    (if p.source_mark.isSome then 1 else 0)

/-- The target selector `i3_swap_containers` builds (truthiness-based
if/elif/else chain from the source). -/
def targetCriteria (p : SwapInput) : String :=
  if intTruthy p.target_id then "id " ++ pyShowOptInt p.target_id
  else if intTruthy p.target_con_id then "con_id " ++ pyShowOptInt p.target_con_id
  else "mark \"" ++ pyShowOptStr p.target_mark ++ "\""

/-- The source selector `i3_swap_containers` builds when a source is
given. -/
def sourceCriteria (p : SwapInput) : String :=
  if intTruthy p.source_id then "[id=" ++ pyShowOptInt p.source_id ++ "]"
  else if intTruthy p.source_con_id then "[con_id=" ++ pyShowOptInt p.source_con_id ++ "]"
  else "[con_mark=\"" ++ pyShowOptStr p.source_mark ++ "\"]"

/-- The focus command emitted first when a source is given. -/
def focusCommand (p : SwapInput) : String := sourceCriteria p ++ " focus"

/-- The swap-with-target command. -/
def swapCommand (p : SwapInput) : String := "swap container with " ++ targetCriteria p

/-- The four return shapes of `i3_swap_containers`: a validation failure,
the failure returned when focusing the source failed, the two-step
source-path result, and the legacy single-command result. -/
inductive SwapResult where
  | validationError (msg : String)
  | focusFailed (msg : String)
  | swapped (success : Bool) (command : String)
  | legacy (success : Bool) (command : String)
deriving Repr, DecidableEq

/-- `i3_swap_containers` from the source, returning the result shape and
the ordered trace of command lines handed to the transport. -/
def i3_swap_containers (p : SwapInput) (tr : Transport) : SwapResult × List String :=
  if !intTruthy p.target_id && !intTruthy p.target_con_id && !strTruthy p.target_mark then
    (.validationError "Must specify one of: target_id, target_con_id, or target_mark", [])
  else if 1 < targetCount p then
    (.validationError "Only specify one target parameter (target_id, target_con_id, or target_mark)", [])
  else if 1 < sourceCount p then
    (.validationError "Only specify one source parameter (source_id, source_con_id, or source_mark)", [])
  else if 0 < sourceCount p then
    let focusRes := tr (focusCommand p)
    if !focusRes.success then
      (.focusFailed ("Failed to focus source window: " ++ focusRes.error.getD "Unknown error"),
       [focusCommand p])
    else
      let swapRes := tr (swapCommand p)
      (.swapped swapRes.success (focusCommand p ++ "; " ++ swapCommand p),
       [focusCommand p, swapCommand p])
  else
    (.legacy (tr (swapCommand p)).success (swapCommand p), [swapCommand p])

/-- C6: with a valid target and exactly one source parameter,
`i3_swap_containers` first issues the focus command built from the source
selector; the swap command is issued only when that focus succeeded (a
failed focus returns a failure with the swap never sent); with no source
parameter, exactly one command is issued, swapping the focused window
with the target. -/
theorem swap_containers_sequencing (p : SwapInput) (tr : Transport)
    (hv : (intTruthy p.target_id || intTruthy p.target_con_id || strTruthy p.target_mark) = true)
    (hc : targetCount p ≤ 1) :
    (sourceCount p = 1 →
      ((tr (focusCommand p)).success = false →
        i3_swap_containers p tr =
          (.focusFailed ("Failed to focus source window: " ++
              ((tr (focusCommand p)).error.getD "Unknown error")),
           [focusCommand p])) ∧
      ((tr (focusCommand p)).success = true →
        i3_swap_containers p tr =
          (.swapped (tr (swapCommand p)).success (focusCommand p ++ "; " ++ swapCommand p),
           [focusCommand p, swapCommand p]))) ∧
    (p.source_id = none ∧ p.source_con_id = none ∧ p.source_mark = none →
      i3_swap_containers p tr =
        (.legacy (tr (swapCommand p)).success (swapCommand p), [swapCommand p])) := by
  have h1 : (!intTruthy p.target_id && !intTruthy p.target_con_id && !strTruthy p.target_mark) = false := by
    revert hv
    cases intTruthy p.target_id <;> cases intTruthy p.target_con_id <;>
      cases strTruthy p.target_mark <;> simp
  have h2 : ¬ 1 < targetCount p := by omega
  constructor
  · intro hs
    have h3 : ¬ 1 < sourceCount p := by omega
    have h4 : 0 < sourceCount p := by omega
    constructor
    · intro hf
      simp [i3_swap_containers, h1, h2, h3, h4, hf]
    · intro hf
      simp [i3_swap_containers, h1, h2, h3, h4, hf]
  · rintro ⟨e1, e2, e3⟩
    have h0 : sourceCount p = 0 := by simp [sourceCount, e1, e2, e3]
    have h3 : ¬ 1 < sourceCount p := by omega
    have h4 : ¬ 0 < sourceCount p := by omega
    simp [i3_swap_containers, h1, h2, h3, h4]

/-- A transport whose every reply succeeds. -/
def trivialTransport : Transport := fun _ => { success := true }

/-- C6 witness: a mark-selected source with an id target under the
all-success transport issues focus then swap; the same target with no
source issues exactly the swap command. -/
theorem swap_containers_sequencing_witness :
    i3_swap_containers { target_id := some 5, source_mark := some "w1" } trivialTransport =
      (.swapped true "[con_mark=\"w1\"] focus; swap container with id 5",
       ["[con_mark=\"w1\"] focus", "swap container with id 5"]) ∧
    i3_swap_containers { target_id := some 5 } trivialTransport =
      (.legacy true "swap container with id 5", ["swap container with id 5"]) := by
  constructor
  · have h := (swap_containers_sequencing { target_id := some 5, source_mark := some "w1" }
      trivialTransport (by decide) (by decide)).1 (by decide) |>.2 (by rfl)
    simpa using h
  · have h := (swap_containers_sequencing { target_id := some 5 }
      trivialTransport (by decide) (by decide)).2 ⟨rfl, rfl, rfl⟩
    simpa using h

/-- One entry of the `get_workspaces` reply (the fields the bulk move
reads: `name` and `output`). -/
structure WorkspaceInfo where
  name : String
  output : String
deriving Repr, DecidableEq

/-- `BulkWorkspaceMoveInput`: the pydantic model for
`i3_workspace_bulk_move`. -/
structure BulkWorkspaceMoveInput where
  workspaces : List String
  target_output : String
  preserve_workspace : Option String := none
  placeholder_workspace : Option String := none
deriving Repr, DecidableEq

/-- Lookup in `workspace_map` (a dict comprehension keyed by name, so a
later entry overwrites an earlier one with the same name). -/
def workspaceLookup (l : List WorkspaceInfo) (name : String) : Option WorkspaceInfo :=
  (l.filter (fun ws => ws.name == name)).getLast?

/-- One entry of `moved_workspaces`. -/
structure MovedEntry where
  workspace : String
  from_output : String
  to_output : String
deriving Repr, DecidableEq

/-- One entry of `failed_workspaces`. -/
structure FailedEntry where
  workspace : String
  reason : String
deriving Repr, DecidableEq

/-- The set of outputs losing workspaces (step 2 of the bulk move).  The
Python `set` iterates in an unspecified order; it is modelled in
first-encounter order, and no claim proved below depends on that order. -/
def sourceOutputs (wsList : List WorkspaceInfo) (wss : List String) : List String :=
  (wss.filterMap (fun w => (workspaceLookup wsList w).map (fun ws => ws.output))).eraseDups

/-- Step 2 of `i3_workspace_bulk_move`: for each source output, focus it
and open the placeholder workspace; a failed focus skips the output, a
failed create is recorded as a failure.  Returns the recorded failures
and the trace of commands handed to the transport. -/
def placeholderStep (tr : Transport) (placeholder : String) :
    List String → List FailedEntry × List String
  | [] => ([], [])
  | o :: rest =>
    let focusRes := tr ("focus output " ++ o)
    let step := placeholderStep tr placeholder rest
    if !focusRes.success then
      (step.1, ("focus output " ++ o) :: step.2)
    else
      let createRes := tr ("workspace " ++ placeholder)
      if createRes.success then
        (step.1, ("focus output " ++ o) :: ("workspace " ++ placeholder) :: step.2)
      else
        ({ workspace := placeholder, reason := "Failed to create placeholder workspace" } :: step.1,
         ("focus output " ++ o) :: ("workspace " ++ placeholder) :: step.2)

/-- The combined command of step 3: switch to the workspace, then move it
to the target output. -/
def bulkMoveCommand (w target : String) : String :=
  "workspace " ++ w ++ "; move workspace to output " ++ target

/-- Step 3 of `i3_workspace_bulk_move`: for each input workspace, skip it
when it equals the truthy preserved workspace, record a "Workspace does
not exist" failure when it is absent from the map, otherwise issue the
combined command and record the per-item outcome.  Returns
(moved, failed, trace). -/
def moveLoop (tr : Transport) (wsList : List WorkspaceInfo) (target : String)
    (preserve : Option String) :
    List String → List MovedEntry × List FailedEntry × List String
  | [] => ([], [], [])
  | w :: rest =>
    let step := moveLoop tr wsList target preserve rest
    if strTruthy preserve && w == preserve.getD "" then step
    else
      match workspaceLookup wsList w with
      | none =>
        (step.1, { workspace := w, reason := "Workspace does not exist" } :: step.2.1, step.2.2)
      | some info =>
        let res := tr (bulkMoveCommand w target)
        if res.success then
          ({ workspace := w, from_output := info.output, to_output := target } :: step.1,
           step.2.1, bulkMoveCommand w target :: step.2.2)
        else
          (step.1, { workspace := w, reason := "Move command failed" } :: step.2.1,
           bulkMoveCommand w target :: step.2.2)

/-- The JSON result `i3_workspace_bulk_move` returns on the non-error
path. -/
structure BulkReport where
  success : Bool
  moved_count : Nat
  failed_count : Nat
  moved_workspaces : List MovedEntry
  failed_workspaces : List FailedEntry
  preserved_workspace : Option String
  placeholder_workspace : Option String
deriving Repr, DecidableEq

/-- `i3_workspace_bulk_move` from the source.  `wsQuery` is the
`get_workspaces` reply (`none` = failed query, which returns the early
error before any command).  The second component is the ordered trace of
command lines handed to the transport. -/
def i3_workspace_bulk_move (p : BulkWorkspaceMoveInput) (tr : Transport)
    (wsQuery : Option (List WorkspaceInfo)) : Except String BulkReport × List String :=
  match wsQuery with
  | none => (.error "Failed to get workspace list", [])
  | some wsList =>
    let step2 :=
      if strTruthy p.placeholder_workspace then
        placeholderStep tr (p.placeholder_workspace.getD "") (sourceOutputs wsList p.workspaces)
      else ([], [])
    let step3 := moveLoop tr wsList p.target_output p.preserve_workspace p.workspaces
    (.ok { success := true
         , moved_count := step3.1.length
         , failed_count := (step2.1 ++ step3.2.1).length
         , moved_workspaces := step3.1
         , failed_workspaces := step2.1 ++ step3.2.1
         , preserved_workspace := p.preserve_workspace
         , placeholder_workspace := p.placeholder_workspace }, step2.2 ++ step3.2.2)

/-- The all-items-fail input of the C1 counterexample: one workspace that
does not exist in the (empty) workspace list. -/
def bulkAllFailInput : BulkWorkspaceMoveInput :=
  { workspaces := ["1"], target_output := "DP-1" }

/-- C1 counterexample: with an empty workspace list every attempted item
fails ("1" does not exist), zero items succeed, yet the returned report
has success = true — the source returns `"success": True` unconditionally
— contradicting the claimed success = false when zero items succeeded.
No transport command is issued (empty trace). -/
theorem bulk_move_all_failed_success_true :
    i3_workspace_bulk_move bulkAllFailInput trivialTransport (some []) =
      (.ok { success := true
           , moved_count := 0
           , failed_count := 1
           , moved_workspaces := []
           , failed_workspaces := [{ workspace := "1", reason := "Workspace does not exist" }]
           , preserved_workspace := none
           , placeholder_workspace := none }, []) := by
  rfl

/-- C1 amended: whenever the workspace query succeeds, the bulk move
returns a report whose success flag is true unconditionally — regardless
of how many items failed, even when zero items succeeded — with every
failed item itemized in `failed_workspaces` and the counts equal to the
lengths of the itemized lists. -/
theorem bulk_move_success_flag_amended (p : BulkWorkspaceMoveInput) (tr : Transport)
    (wsList : List WorkspaceInfo) :
    ∃ report trace,
      i3_workspace_bulk_move p tr (some wsList) = (.ok report, trace) ∧
      report.success = true ∧
      report.moved_count = report.moved_workspaces.length ∧
      report.failed_count = report.failed_workspaces.length :=
  ⟨_, _, rfl, rfl, rfl, rfl⟩

theorem moveLoop_skip_preserve (tr : Transport) (m : List WorkspaceInfo)
    (target s : String) (hs : s ≠ "") (wss : List String) :
    moveLoop tr m target (some s) wss =
      moveLoop tr m target (some s) (wss.filter (fun w => w != s)) := by
  induction wss with
  | nil => rfl
  | cons w rest ih =>
    by_cases hw : w = s
    · subst hw
      simp [moveLoop, strTruthy, hs, List.filter_cons, ih]
    · have hbeq : (w == s) = false := by simp [hw]
      simp [moveLoop, strTruthy, List.filter_cons, hbeq, hs, hw, ih]

theorem moveLoop_mem_input (tr : Transport) (m : List WorkspaceInfo)
    (target : String) (preserve : Option String) (wss : List String) :
    (∀ e ∈ (moveLoop tr m target preserve wss).1, e.workspace ∈ wss) ∧
    (∀ e ∈ (moveLoop tr m target preserve wss).2.1, e.workspace ∈ wss) := by
  induction wss with
  | nil => simp [moveLoop]
  | cons w rest ih =>
    obtain ⟨ih1, ih2⟩ := ih
    simp only [moveLoop]
    split
    · exact ⟨fun e he => List.mem_cons_of_mem w (ih1 e he),
             fun e he => List.mem_cons_of_mem w (ih2 e he)⟩
    · split
      · refine ⟨fun e he => List.mem_cons_of_mem w (ih1 e he), fun e he => ?_⟩
        rcases List.mem_cons.mp he with h | h
        · subst h; exact List.mem_cons_self w rest
        · exact List.mem_cons_of_mem w (ih2 e h)
      · split
        · refine ⟨fun e he => ?_, fun e he => List.mem_cons_of_mem w (ih2 e he)⟩
          rcases List.mem_cons.mp he with h | h
          · subst h; exact List.mem_cons_self w rest
          · exact List.mem_cons_of_mem w (ih1 e h)
        · refine ⟨fun e he => List.mem_cons_of_mem w (ih1 e he), fun e he => ?_⟩
          rcases List.mem_cons.mp he with h | h
          · subst h; exact List.mem_cons_self w rest
          · exact List.mem_cons_of_mem w (ih2 e h)

/-- The workspace list of the concrete C9 example: workspaces "1" and "2"
both on output "eDP-1". -/
def exampleWsList : List WorkspaceInfo :=
  [{ name := "1", output := "eDP-1" }, { name := "2", output := "eDP-1" }]

/-- The concrete C9 input: move ["1", "2"] to "DP-1" preserving "2". -/
def preserveExampleInput : BulkWorkspaceMoveInput :=
  { workspaces := ["1", "2"], target_output := "DP-1", preserve_workspace := some "2" }

/-- C9: a workspace equal to the truthy preserved workspace is excluded
entirely from the per-item move loop — the loop behaves exactly as if the
preserved occurrences were absent from the input (same moved and failed
lists and the same transport trace), and the preserved name appears in
neither list; concretely, workspaces=["1","2"] with preserve="2" and
target "DP-1" reports "1" moved, nothing failed, "2" nowhere, and issues
exactly the one command for "1". -/
theorem bulk_move_preserve_excluded :
    (∀ (tr : Transport) (m : List WorkspaceInfo) (target s : String) (wss : List String),
      s ≠ "" →
      moveLoop tr m target (some s) wss =
        moveLoop tr m target (some s) (wss.filter (fun w => w != s))) ∧
    (∀ (tr : Transport) (m : List WorkspaceInfo) (target s : String) (wss : List String),
      s ≠ "" →
      (∀ e ∈ (moveLoop tr m target (some s) wss).1, e.workspace ≠ s) ∧
      (∀ e ∈ (moveLoop tr m target (some s) wss).2.1, e.workspace ≠ s)) ∧
    i3_workspace_bulk_move preserveExampleInput trivialTransport (some exampleWsList) =
      (.ok { success := true
           , moved_count := 1
           , failed_count := 0
           , moved_workspaces := [{ workspace := "1", from_output := "eDP-1", to_output := "DP-1" }]
           , failed_workspaces := []
           , preserved_workspace := some "2"
           , placeholder_workspace := none },
       ["workspace 1; move workspace to output DP-1"]) := by
  refine ⟨fun tr m target s wss hs => moveLoop_skip_preserve tr m target s hs wss,
    fun tr m target s wss hs => ?_, by rfl⟩
  have hrw := moveLoop_skip_preserve tr m target s hs wss
  have hmem := moveLoop_mem_input tr m target (some s) (wss.filter (fun w => w != s))
  rw [hrw]
  refine ⟨fun e he => ?_, fun e he => ?_⟩
  · have := hmem.1 e he
    have := List.of_mem_filter this
    simpa using this
  · have := hmem.2 e he
    have := List.of_mem_filter this
    simpa using this

/-- C9 witness: the filter equation and the non-membership facts at the
concrete example input. -/
theorem bulk_move_preserve_excluded_witness :
    moveLoop trivialTransport exampleWsList "DP-1" (some "2") ["1", "2"] =
      moveLoop trivialTransport exampleWsList "DP-1" (some "2")
        ((["1", "2"] : List String).filter (fun w => w != "2")) ∧
    (∀ e ∈ (moveLoop trivialTransport exampleWsList "DP-1" (some "2") ["1", "2"]).1,
      e.workspace ≠ "2") :=
  ⟨bulk_move_preserve_excluded.1 trivialTransport exampleWsList "DP-1" "2" ["1", "2"]
      (by decide),
   (bulk_move_preserve_excluded.2.1 trivialTransport exampleWsList "DP-1" "2" ["1", "2"]
      (by decide)).1⟩
